import Mathlib

/-!
Shallow embedding of the CaseStudy3 academic records manager
(single source file, a text-menu e-learning platform) and proofs about its
entity model, serialization layer and load/save orchestration.

Modelling conventions:
* Python floats (gpa, score) are modelled as rationals; the program only
  compares and stores them, never does lossy arithmetic.
* Python object references are modelled by value.  Where a cyclic reference
  graph (Course <-> Student, Course <-> Instructor, ...) prevents a direct
  by-value translation, the reference is represented by the referenced
  unique key of the referenced entity (student_id, course_code), which is exactly what the
  serialization layer reads from it.  Each such spot is marked in a comment.
* Python identity comparison (`x in list` for objects without __eq__) is
  modelled by structural equality; every theorem that depends on membership
  uses inputs whose unique keys are distinct, where the two coincide.
* Methods that mutate `self` are state passing: they return the updated
  object(s).  Printed messages are modelled by explicit outcome constructors
  or message values; an uncaught Python exception is an `Except.error`.
-/

namespace CaseStudy3

/-- Embedded `next((x for x in l if p x), None)` -/
def pyNext (p : α → Bool) : List α → Option α
  | [] => none
  | a :: l => if p a then some a else pyNext p l

/-- In-place mutation of the first list element matching `p` (Python mutates
the shared object found by `next`; by value this updates that position). -/
def updateFirst (p : α → Bool) (f : α → α) : List α → List α
  | [] => []
  | a :: l => if p a then f a :: l else a :: updateFirst p f l

/-- Embedded `list.remove` of the first element matching `p`. -/
def removeFirst (p : α → Bool) : List α → List α
  | [] => []
  | a :: l => if p a then l else a :: removeFirst p l

/-- A list comprehension over a fallible element function: the first raised
exception aborts the whole comprehension. -/
def mapExcept (f : α → Except String β) : List α → Except String (List β)
  | [] => .ok []
  | a :: l =>
    match f a with
    | .error e => .error e
    | .ok b =>
      match mapExcept f l with
      | .error e => .error e
      | .ok bs => .ok (b :: bs)

/-- Python `str.isdigit` (ASCII profile): nonempty and all digits. -/
def pyIsDigit (s : String) : Bool :=
  !s.toList.isEmpty && s.toList.all Char.isDigit

/-- Python `str.isalnum` (ASCII profile): nonempty and all alphanumeric. -/
def pyIsAlnum (s : String) : Bool :=
  !s.toList.isEmpty && s.toList.all Char.isAlphanum

/-- Python `not value.strip()`: true iff the string is all whitespace. -/
def pyStripIsEmpty (s : String) : Bool :=
  s.toList.all Char.isWhitespace

/-- Python `"c" in value` for a single character. -/
def pyContainsChar (s : String) (c : Char) : Bool :=
  s.toList.contains c

/-- A `datetime.datetime` value. -/
structure PyDateTime where
  year : Nat
  month : Nat
  day : Nat
  hour : Nat
  minute : Nat
  second : Nat
deriving DecidableEq, Repr

/-- Injective monotone key for comparing in-range datetimes
(month ≤ 12, day ≤ 31, hour < 24, minute < 60, second < 60). -/
def PyDateTime.key (t : PyDateTime) : Nat :=
  ((((t.year * 13 + t.month) * 32 + t.day) * 24 + t.hour) * 60 + t.minute) * 60 + t.second

/-- Embedded `a <= b` on datetimes. -/
def PyDateTime.le (a b : PyDateTime) : Bool :=
  a.key ≤ b.key

def isLeapYear (y : Nat) : Bool :=
  (y % 4 == 0 && y % 100 != 0) || (y % 400 == 0)

def daysInMonth (y m : Nat) : Nat :=
  if m == 2 then (if isLeapYear y then 29 else 28)
  else if m == 4 || m == 6 || m == 9 || m == 11 then 30
  else 31

def digitVal (c : Char) : Nat := c.toNat - 48

def digit2 (a b : Char) : Option Nat :=
  if a.isDigit && b.isDigit then some (digitVal a * 10 + digitVal b) else none

def digit4 (a b c d : Char) : Option Nat :=
  if a.isDigit && b.isDigit && c.isDigit && d.isDigit then
    some (((digitVal a * 10 + digitVal b) * 10 + digitVal c) * 10 + digitVal d)
  else none

/-- Parse and range-check `YYYY-MM-DD`. -/
def parseIsoDate : List Char → Option (Nat × Nat × Nat)
  | [y1, y2, y3, y4, s1, m1, m2, s2, d1, d2] =>
    if s1 == '-' && s2 == '-' then
      match digit4 y1 y2 y3 y4, digit2 m1 m2, digit2 d1 d2 with
      | some y, some m, some d =>
        if 1 ≤ y && y ≤ 9999 && 1 ≤ m && m ≤ 12 && 1 ≤ d && d ≤ daysInMonth y m then
          some (y, m, d)
        else none
      | _, _, _ => none
    else none
  | _ => none

/-- Parse and range-check `HH:MM:SS`. -/
def parseIsoTime : List Char → Option (Nat × Nat × Nat)
  | [h1, h2, s1, m1, m2, s2, c1, c2] =>
    if s1 == ':' && s2 == ':' then
      match digit2 h1 h2, digit2 m1 m2, digit2 c1 c2 with
      | some h, some m, some s =>
        if h ≤ 23 && m ≤ 59 && s ≤ 59 then some (h, m, s) else none
      | _, _, _ => none
    else none
  | _ => none

/-- Embedded `datetime.fromisoformat`, restricted to the profile the program documents
in its own error message (`YYYY-MM-DDTHH:MM:SS`, with the date-only form also
accepted); `none` models the raised `ValueError`. -/
def datetime_fromisoformat (s : String) : Option PyDateTime :=
  match splitAtT s.toList with
  | (datePart, none) =>
    (parseIsoDate datePart).map fun (y, m, d) => ⟨y, m, d, 0, 0, 0⟩
  | (datePart, some timePart) =>
    match parseIsoDate datePart, parseIsoTime timePart with
    | some (y, m, d), some (h, mi, se) => some ⟨y, m, d, h, mi, se⟩
    | _, _ => none
where
  /-- split the character list at the first `T`, if any -/
  splitAtT : List Char → List Char × Option (List Char)
    | [] => ([], none)
    | c :: l =>
      if c == 'T' then ([], some l)
      else
        let r := splitAtT l
        (c :: r.1, r.2)

/-! ## Entity model (from the source classes, leaves first)

The Python object graph is cyclic (Course holds Students and an Instructor,
Students and Instructors hold Courses, Assignments and Schedules hold their
Course back again).  The cycles are broken exactly where the code only ever
reads a unique key from the reference; those spots are noted field by field. -/

/-- An `Instructor`.  `_courses_taught` holds `Course` references in Python;
`Instructor.to_dict` reads only the `course_code` of each course, so the list is
represented by those codes.  The `_assignments` and `course` attributes are
never read by the persistence layer or by any operation modelled here. -/
structure Instructor where
  name : String
  email : String
  contact_number : String
  address : String
  instructor_id : String
  role : String
  courses_taught : List String
deriving DecidableEq, Repr

/-- Embedded `Instructor.__init__` (no field validation is performed in the body). -/
def Instructor.init (name email contact_number address instructor_id role : String) :
    Instructor :=
  { name, email, contact_number, address, instructor_id, role, courses_taught := [] }

/-- One entry of `Assignment.grades`: the dict
`{score, student_id, feedback}` appended by `Assignment.add_grade`. -/
structure AssignmentGradeEntry where
  score : Rat
  student_id : String
  feedback : String
deriving DecidableEq, Repr

/-- An `Assignment`.  The `course` back-reference (the owning course passed to
`__init__`) is omitted to break the Course/Assignment cycle; no operation
modelled here reads anything but the name of the owning course from it. -/
structure Assignment where
  title : String
  description : String
  due_date : PyDateTime
  grades : List AssignmentGradeEntry
deriving DecidableEq, Repr

/-- One post of a `DiscussionThread`: the dict
`{person, timestamp, message}` appended by `add_post`. -/
structure Post where
  person : String
  timestamp : PyDateTime
  message : String
deriving DecidableEq, Repr

/-- A `DiscussionThread`.  The `course` reference is represented by its
unique code, the `creator` Person reference by its name: those are the only
things read from them. -/
structure DiscussionThread where
  course_code : String
  title : String
  creator_name : String
  posts : List Post
  timestamp : PyDateTime
deriving DecidableEq, Repr

/-- A value of the `Course.grades` dict: a `Grade` whose `student` and
`assignment` references are represented by the same unique keys the dict is
keyed by. -/
structure GradeData where
  student_id : String
  assignment_title : String
  score : Rat
  feedback : Option String
deriving DecidableEq, Repr

/-- The `schedule` attribute that `load_data` sets on a course: a `Schedule`
object, whose `course` back-reference is the course itself (omitted to break
the cycle; `save_data` reads only `day` and `time` from it). -/
structure SchedEntry where
  day : String
  time : String
deriving DecidableEq, Repr

/-- A `Course`.  The `_students` and `enrolled_students` lists hold `Student`
references in Python; they are represented by each referenced student, via its unique
`student_id`s to break the Course/Student cycle.  `schedule` is the attribute
dynamically added by `load_data` (`none` = attribute absent). -/
structure Course where
  course_name : String
  course_code : String
  instructor : Instructor
  units : Int
  students : List String
  assignments : List Assignment
  grades : List ((String × String) × GradeData)
  enrolled_students : List String
  discussion_threads : List DiscussionThread
  schedule : Option SchedEntry
deriving DecidableEq, Repr

/-- Embedded `Course.__init__`. -/
def Course.init (course_name course_code : String) (instructor : Instructor)
    (units : Int) : Course :=
  { course_name, course_code, instructor, units, students := [], assignments := []
  , grades := [], enrolled_students := [], discussion_threads := [], schedule := none }

/-- One entry of `Student.grades`: the dict
`{course_name, course_code, grade}` appended by `Student.add_grade`. -/
structure StudentGradeEntry where
  course_name : String
  course_code : String
  grade : Rat
deriving DecidableEq, Repr

/-- A `Student`.  `enrolled_courses` holds full `Course` values (the code
serializes them as nested course dicts).  The untyped, never-read `course`
attribute is omitted. -/
structure Student where
  name : String
  email : String
  contact_number : String
  address : String
  student_id : String
  year_level : String
  program : String
  gpa : Rat
  birth_date : Option String
  role : String
  enrolled_courses : List Course
  grades : List StudentGradeEntry
deriving DecidableEq, Repr

/-- Embedded `Student.__init__`: every argument is stored directly on the object
(the property setters are not invoked, so no validation runs here). -/
def Student.init (name email contact_number address student_id year_level program : String)
    (gpa : Rat) (birth_date : Option String) (enrolled_courses : Option (List Course))
    (role : String) : Student :=
  { name, email, contact_number, address, student_id, year_level, program, gpa
  , birth_date, role, enrolled_courses := enrolled_courses.getD [], grades := [] }

/-- A `Grade`: shared references to its student and assignment plus the score
and optional feedback. -/
structure Grade where
  student : Student
  assignment : Assignment
  score : Rat
  feedback : Option String
deriving DecidableEq, Repr

/-! ## Validated property setters (class `Person` and `Student.gpa`)

Each setter either raises `ValueError` (the `Except.error` branch, object
unchanged) or stores the new value.  Both `Student` and `Instructor` inherit
the `Person` setters; they are stated on `Student`, whose construction the
claims are about, with the shared checks factored out verbatim. -/

/-- Embedded `Person.name` setter check: `not value.strip()`. -/
def nameInvalid (value : String) : Bool := pyStripIsEmpty value

/-- Embedded `Person.email` setter check: `"@" not in value or "." not in value`. -/
def emailInvalid (value : String) : Bool :=
  !pyContainsChar value '@' || !pyContainsChar value '.'

/-- Embedded `Person.contact_number` setter check:
`not value.isdigit() or len(value) < 10`. -/
def contactInvalid (value : String) : Bool :=
  !pyIsDigit value || value.toList.length < 10

def Student.set_name (s : Student) (value : String) : Except String Student :=
  if nameInvalid value then .error "Name cannot be empty."
  else .ok { s with name := value }

def Student.set_email (s : Student) (value : String) : Except String Student :=
  if emailInvalid value then .error "Invalid email address."
  else .ok { s with email := value }

def Student.set_contact_number (s : Student) (value : String) : Except String Student :=
  if contactInvalid value then .error "Contact number must be at least 10 digits."
  else .ok { s with contact_number := value }

def Student.set_address (s : Student) (value : String) : Except String Student :=
  if nameInvalid value then .error "Address cannot be empty."
  else .ok { s with address := value }

/-- Embedded `Student.gpa` setter: accepts `0 <= value <= 4.0`, raises otherwise. -/
def Student.set_gpa (s : Student) (value : Rat) : Except String Student :=
  if 0 ≤ value ∧ value ≤ 4 then .ok { s with gpa := value }
  else .error "GPA must be between 0 and 4.0"

/-! ## Grade -/

/-- Embedded `Grade.validate_score`: raises unless `0 <= score <= 100`. -/
def Grade.validate_score (g : Grade) : Except String Unit :=
  if 0 ≤ g.score ∧ g.score ≤ 100 then .ok ()
  else .error "Score must be between 0 and 100."

/-- Embedded `Grade.__init__`: stores the fields, then calls `validate_score`. -/
def Grade.init (student : Student) (assignment : Assignment) (score : Rat)
    (feedback : Option String) : Except String Grade :=
  let g : Grade := { student, assignment, score, feedback }
  match g.validate_score with
  | .ok _ => .ok g
  | .error e => .error e

/-- The `Grade.score` setter: it first stores the new value and only then
validates, so on a raised `ValueError` the returned object already holds the
new (invalid) score. -/
def Grade.set_score (g : Grade) (value : Rat) : Grade × Except String Unit :=
  let g2 := { g with score := value }
  (g2, g2.validate_score)

/-! ## Student and Course relationship operations -/

/-- Embedded `Student.enroll`: append the course unless already present
(Python membership is object identity; structural equality stands in). -/
def Student.enroll (s : Student) (course : Course) : Student :=
  if course ∈ s.enrolled_courses then s
  else { s with enrolled_courses := s.enrolled_courses ++ [course] }

/-- Embedded `Student.add_grade`. -/
def Student.add_grade (s : Student) (course : Course) (grade : Rat) : Student :=
  { s with grades := s.grades ++ [⟨course.course_name, course.course_code, grade⟩] }

/-- Embedded `Course.add_student`: appends to `_students` (not `enrolled_students`)
unless already present; prints either way. -/
def Course.add_student (c : Course) (student : Student) : Course :=
  if student.student_id ∈ c.students then c
  else { c with students := c.students ++ [student.student_id] }

/-- Embedded `Course.remove_student` is literally `pass`: it removes nothing. -/
def Course.remove_student (c : Course) (_student : Student) : Course := c

/-- Embedded `Course.add_grade`: no-op with a printed conflict when the
`(student_id, assignment_title)` key already exists. -/
def Course.add_grade (c : Course) (grade : Grade) : Course :=
  let key := (grade.student.student_id, grade.assignment.title)
  if (c.grades.map Prod.fst).contains key then c
  else { c with grades := c.grades ++
          [(key, ⟨grade.student.student_id, grade.assignment.title, grade.score, grade.feedback⟩)] }

/-- Outcome printed by `Course.assign_assignment`. -/
inductive AssignOutcome where
  | invalidDateFormat
  | dueDateNotFuture
  | duplicateAssignment
  | added
deriving DecidableEq, Repr

/-- Embedded `Course.assign_assignment`: parse the due date (malformed → error printed,
nothing added), reject a due date not strictly in the future, reject a
duplicate `(title, due_date)`, otherwise append the new assignment.
`datetime.now()` is passed in as `now`. -/
def Course.assign_assignment (c : Course) (title description due_date : String)
    (now : PyDateTime) : Course × AssignOutcome :=
  match datetime_fromisoformat due_date with
  | none => (c, .invalidDateFormat)
  | some due_datetime =>
    if due_datetime.le now then (c, .dueDateNotFuture)
    else if c.assignments.any (fun a => a.title == title && a.due_date == due_datetime) then
      (c, .duplicateAssignment)
    else
      ({ c with assignments := c.assignments ++ [⟨title, description, due_datetime, []⟩] }, .added)

/-! ## Enrollment (link entity) -/

/-- The `Enrollment` class: a list of `{student, course}` records. -/
structure Enrollment where
  enrollments : List (Student × Course)
deriving DecidableEq, Repr

/-- Embedded `Enrollment.is_student_enrolled`. -/
def Enrollment.is_student_enrolled (e : Enrollment) (student : Student)
    (course : Course) : Bool :=
  decide ((student, course) ∈ e.enrollments)

/-- Embedded `Enrollment.enroll_student`.  The student argument is returned untouched:
the source never writes to it (it only calls `course.add_student` and appends
a record).  The record stores the course after `add_student` ran, mirroring
that Python stores a reference to the mutated object. -/
def Enrollment.enroll_student (e : Enrollment) (student : Student) (course : Course) :
    Student × Course × Enrollment :=
  if e.is_student_enrolled student course then (student, course, e)
  else
    let course2 := course.add_student student
    (student, course2, ⟨e.enrollments ++ [(student, course2)]⟩)

/-- Embedded `Enrollment.unenroll_student`: for the first matching record it calls
`course.remove_student` (a `pass`) and removes the record; both the student
and the course come back unchanged. -/
def Enrollment.unenroll_student (e : Enrollment) (student : Student) (course : Course) :
    Student × Course × Enrollment :=
  if e.is_student_enrolled student course then
    (student, course.remove_student student,
      ⟨removeFirst (fun p => p == (student, course)) e.enrollments⟩)
  else (student, course, e)

/-! ## Announcement and DiscussionThread -/

structure Announcement where
  title : String
  content : String
  date : String
  recipient_groups : List String
deriving DecidableEq, Repr

/-- Outcome printed by `Announcement.add_recipient_group`. -/
inductive AnnounceOutcome where
  | invalidGroupPrinted
  | added
  | alreadyRecipient
deriving DecidableEq, Repr

/-- Embedded `Announcement.add_recipient_group`: a non-alphanumeric group name prints
an error and returns normally (no exception); otherwise append unless
already present. -/
def Announcement.add_recipient_group (a : Announcement) (group : String) :
    Announcement × AnnounceOutcome :=
  if !pyIsAlnum group then (a, .invalidGroupPrinted)
  else if group ∈ a.recipient_groups then (a, .alreadyRecipient)
  else ({ a with recipient_groups := a.recipient_groups ++ [group] }, .added)

/-- Outcome printed by `DiscussionThread.add_post`. -/
inductive PostOutcome where
  | emptyMessagePrinted
  | posted
deriving DecidableEq, Repr

/-- Embedded `DiscussionThread.add_post`: a whitespace-only message prints an error and
returns normally (no exception); otherwise the post is appended.
`person` is the name of the poster (the only attribute read); `now` is
`datetime.now()`. -/
def DiscussionThread.add_post (t : DiscussionThread) (person : String)
    (message : String) (now : PyDateTime) : DiscussionThread × PostOutcome :=
  if pyStripIsEmpty message then (t, .emptyMessagePrinted)
  else ({ t with posts := t.posts ++ [⟨person, now, message⟩] }, .posted)

/-! ## Serialization layer

Flat records mirror the JSON dicts.  A JSON dict may lack a key, so every
field read with `data[k]` (a possible `KeyError`) is an `Option`; fields read
with `data.get(k, default)` conflate a missing key with the default, which is
exactly what `.get` does. -/

/-- A course dict: `{course_name, course_code, instructor_id, units}`. -/
structure CourseRec where
  course_name : Option String
  course_code : Option String
  instructor_id : Option String
  units : Option Int
deriving DecidableEq, Repr

/-- Embedded `Course.to_dict`. -/
def Course.to_dict (c : Course) : CourseRec :=
  { course_name := some c.course_name
  , course_code := some c.course_code
  , instructor_id := some c.instructor.instructor_id
  , units := some c.units }

/-- An instructor dict as produced by `Instructor.to_dict` or found in the
document: `courses_taught` is `none` when the key is absent. -/
structure InstructorRec where
  instructor_id : Option String
  name : Option String
  email : Option String
  contact_number : Option String
  address : Option String
  role : Option String
  courses_taught : Option (List String)
deriving DecidableEq, Repr

/-- Embedded `Instructor.to_dict`: always emits the `courses_taught` key. -/
def Instructor.to_dict (i : Instructor) : InstructorRec :=
  { instructor_id := some i.instructor_id
  , name := some i.name
  , email := some i.email
  , contact_number := some i.contact_number
  , address := some i.address
  , role := some i.role
  , courses_taught := some i.courses_taught }

/-- Embedded `Instructor(**inst_data)`: keyword expansion of a dict into
`Instructor.__init__(name, email, contact_number, address, instructor_id,
role="Instructor")`.  A `courses_taught` key is not a parameter of the
constructor, so its presence raises `TypeError`; so does any missing
required key. -/
def instructorOfKwargs (d : InstructorRec) : Except String Instructor :=
  if d.courses_taught.isSome then
    .error "TypeError: unexpected keyword argument courses_taught"
  else
    match d.name, d.email, d.contact_number, d.address, d.instructor_id with
    | some name, some email, some cn, some addr, some iid =>
      .ok (Instructor.init name email cn addr iid (d.role.getD "Instructor"))
    | _, _, _, _, _ => .error "TypeError: missing required argument"

/-- A student dict: required keys are `Option`; `gpa`, `birth_date` and
`enrolled_courses` are read with `.get`. -/
structure StudentRec where
  name : Option String
  email : Option String
  contact_number : Option String
  address : Option String
  student_id : Option String
  year_level : Option String
  program : Option String
  gpa : Option Rat
  birth_date : Option String
  enrolled_courses : Option (List CourseRec)
deriving DecidableEq, Repr

/-- Embedded `Student.to_dict`: scalars plus the enrolled courses as nested dicts. -/
def Student.to_dict (s : Student) : StudentRec :=
  { name := some s.name
  , email := some s.email
  , contact_number := some s.contact_number
  , address := some s.address
  , student_id := some s.student_id
  , year_level := some s.year_level
  , program := some s.program
  , gpa := some s.gpa
  , birth_date := s.birth_date
  , enrolled_courses := some (s.enrolled_courses.map Course.to_dict) }

/-- The loop at the end of `Student.from_dict`: for each course dict, resolve
`course_data[course_code]` (`KeyError` aborts) against `all_courses` and
enroll when found. -/
def enrollFromDicts (all_courses : List Course) :
    Student → List CourseRec → Except String Student
  | st, [] => .ok st
  | st, cd :: rest =>
    match cd.course_code with
    | none => .error "KeyError: course_code"
    | some code =>
      match pyNext (fun c => c.course_code == code) all_courses with
      | some course => enrollFromDicts all_courses (st.enroll course) rest
      | none => enrollFromDicts all_courses st rest

/-- Embedded `Student.from_dict`: read the required keys (a missing one raises
`KeyError`), construct the student with `gpa`/`birth_date` defaults, then map
`enrolled_courses` to actual courses. -/
def Student.from_dict (data : StudentRec) (all_courses : List Course) :
    Except String Student :=
  match data.name, data.email, data.contact_number, data.address,
      data.student_id, data.year_level, data.program with
  | some name, some email, some cn, some addr, some sid, some yl, some prog =>
    let student := Student.init name email cn addr sid yl prog
      (data.gpa.getD 0) data.birth_date none "Student"
    enrollFromDicts all_courses student (data.enrolled_courses.getD [])
  | _, _, _, _, _, _, _ => .error "KeyError: name"

/-- An enrollment dict: `{student_id, course_code}`. -/
structure EnrollmentRec where
  student_id : Option String
  course_code : Option String
deriving DecidableEq, Repr

/-- A schedule dict: `{course_code, day, time}`. -/
structure ScheduleRec where
  course_code : Option String
  day : Option String
  time : Option String
deriving DecidableEq, Repr

/-- The JSON document (the `admins` key is not read by `load_data`). -/
structure Doc where
  instructors : List InstructorRec
  courses : List CourseRec
  students : List StudentRec
  enrollments : List EnrollmentRec
  schedules : List ScheduleRec
deriving DecidableEq, Repr

/-! ## Repository (`PlatformAdmin`) -/

/-- The repository state. `enrollments` is assigned `[]` by `load_data` and
never appended to by it. -/
structure PlatformAdmin where
  students : List Student
  instructors : List Instructor
  courses : List Course
  enrollments : List (Student × Course)
deriving DecidableEq, Repr

/-- Embedded `PlatformAdmin.__init__`. -/
def PlatformAdmin.init : PlatformAdmin :=
  { students := [], instructors := [], courses := [], enrollments := [] }

/-- Messages printed by `load_data`. -/
inductive Msg where
  | warnInstructorNotFound (instructor_id : Option String) (course_name : String)
  | warnStudentNotFound (student_id : String)
  | warnCourseNotFound (course_code : String)
  | warnScheduleCourseNotFound (course_code : String)
  | loadError (e : String)
deriving DecidableEq, Repr

/-- The courses phase of `load_data`: for each course dict, look up the
instructor by `instructor_id` (`.get`, no `KeyError`); a miss prints a
warning and skips the record; otherwise construct the course (a missing
required key raises, aborting the phase with the partial list built so far,
which is what the in-place `self.courses.append` loop leaves behind). -/
def loadCourses (instructors : List Instructor) :
    List CourseRec → List Course × List Msg × Option String
  | [] => ([], [], none)
  | cd :: rest =>
    match pyNext (fun i => cd.instructor_id == some i.instructor_id) instructors with
    | none =>
      let r := loadCourses instructors rest
      (r.1, .warnInstructorNotFound cd.instructor_id (cd.course_name.getD "Unknown") :: r.2.1, r.2.2)
    | some inst =>
      match cd.course_name, cd.course_code, cd.units with
      | some nm, some code, some units =>
        let r := loadCourses instructors rest
        (Course.init nm code inst units :: r.1, r.2.1, r.2.2)
      | _, _, _ => ([], [], some "KeyError: course field")

/-- The enrollments phase: resolve student and course; when both are found,
`student_obj.enroll(course_obj)` mutates the student inside `self.students`
and `course_obj.enrolled_students.append(student_obj)` mutates the course
inside `self.courses`; a miss on either side prints a warning per missing
reference; a missing key raises, aborting with the state reached so far. -/
def loadEnrollments (students : List Student) (courses : List Course) :
    List EnrollmentRec → List Student × List Course × List Msg × Option String
  | [] => (students, courses, [], none)
  | ed :: rest =>
    match ed.student_id, ed.course_code with
    | some sid, some code =>
      match pyNext (fun s => s.student_id == sid) students,
          pyNext (fun c => c.course_code == code) courses with
      | some _, some course =>
        let students2 := updateFirst (fun s => s.student_id == sid)
          (fun s => s.enroll course) students
        let courses2 := updateFirst (fun c => c.course_code == code)
          (fun c => { c with enrolled_students := c.enrolled_students ++ [sid] }) courses
        loadEnrollments students2 courses2 rest
      | sOpt, cOpt =>
        let r := loadEnrollments students courses rest
        let warns := (if sOpt.isNone then [Msg.warnStudentNotFound sid] else []) ++
          (if cOpt.isNone then [Msg.warnCourseNotFound code] else [])
        (r.1, r.2.1, warns ++ r.2.2.1, r.2.2.2)
    | _, _ => (students, courses, [], some "KeyError: enrollment field")

/-- The schedules phase: resolve the course, then set its `schedule`
attribute (a miss prints a warning; a missing key raises, aborting with the
state reached so far). -/
def loadSchedules (courses : List Course) :
    List ScheduleRec → List Course × List Msg × Option String
  | [] => (courses, [], none)
  | sd :: rest =>
    match sd.course_code with
    | none => (courses, [], some "KeyError: course_code")
    | some code =>
      match pyNext (fun c => c.course_code == code) courses with
      | some _ =>
        match sd.day, sd.time with
        | some day, some time =>
          loadSchedules (updateFirst (fun c => c.course_code == code)
            (fun c => { c with schedule := some ⟨day, time⟩ }) courses) rest
        | _, _ => (courses, [], some "KeyError: schedule field")
      | none =>
        let r := loadSchedules courses rest
        (r.1, .warnScheduleCourseNotFound code :: r.2.1, r.2.2)

/-- Phases 3 to 5 of `load_data`, run once instructors and courses are in
place.  The students phase is a list comprehension: one raising record means
`self.students` keeps its previous value; `self.enrollments` is reset to `[]`
before the enrollments loop. -/
def loadRest (doc : Doc) (self : PlatformAdmin) : PlatformAdmin × List Msg :=
  match mapExcept (fun sd => Student.from_dict sd self.courses) doc.students with
  | .error e => (self, [Msg.loadError e])
  | .ok students =>
    let self3 : PlatformAdmin :=
      { self with students := students, enrollments := [] }
    match loadEnrollments students self.courses doc.enrollments with
    | (students2, courses2, msgs2, some e) =>
      ({ self3 with students := students2, courses := courses2 },
        msgs2 ++ [Msg.loadError e])
    | (students2, courses2, msgs2, none) =>
      let self4 : PlatformAdmin :=
        { self3 with students := students2, courses := courses2 }
      match loadSchedules courses2 doc.schedules with
      | (courses3, msgs3, some e) =>
        ({ self4 with courses := courses3 }, msgs2 ++ msgs3 ++ [Msg.loadError e])
      | (courses3, msgs3, none) =>
        ({ self4 with courses := courses3 }, msgs2 ++ msgs3)

/-- Embedded `PlatformAdmin.load_data` on an already-parsed document.  The whole body
sits in one `try`: the first uncaught exception prints an error message and
ends the load, keeping whatever assignments already happened.  The
instructors phase is the list comprehension `[Instructor(**d) for d in ...]`. -/
def load_data (doc : Doc) (self : PlatformAdmin) : PlatformAdmin × List Msg :=
  match mapExcept instructorOfKwargs doc.instructors with
  | .error e => (self, [Msg.loadError e])
  | .ok instructors =>
    let self1 : PlatformAdmin := { self with instructors := instructors }
    match loadCourses instructors doc.courses with
    | (courses, msgs, some e) =>
      ({ self1 with courses := courses }, msgs ++ [Msg.loadError e])
    | (courses, msgs, none) =>
      let r := loadRest doc { self1 with courses := courses }
      (r.1, msgs ++ r.2)

/-- Embedded `PlatformAdmin.save_data`: flatten every collection; enrollments are
derived from the `enrolled_courses` of each student; schedules only for courses
whose `schedule` attribute exists and is truthy. -/
def save_data (self : PlatformAdmin) : Doc :=
  { students := self.students.map Student.to_dict
  , instructors := self.instructors.map Instructor.to_dict
  , courses := self.courses.map Course.to_dict
  , enrollments :=
      (self.students.map fun s =>
        s.enrolled_courses.map fun c =>
          (⟨some s.student_id, some c.course_code⟩ : EnrollmentRec)).flatten
  , schedules := self.courses.filterMap fun c =>
      c.schedule.map fun sch =>
        (⟨some c.course_code, some sch.day, some sch.time⟩ : ScheduleRec) }

/-! ## Concrete example values used by witnesses and counterexamples -/

def exInstructor : Instructor :=
  Instructor.init "Dr Lim" "lim@mail.com" "09170000001" "Cebu City" "I1" "Instructor"

def s0 : Student :=
  Student.init "Ben Reyes" "ben@mail.com" "09998887766" "Davao City" "S1" "2" "BSIT"
    2 none none "Student"

def c0 : Course := Course.init "Data Structures" "CS201" exInstructor 3

def exAssignment : Assignment :=
  { title := "Quiz 1", description := "Lists and stacks"
  , due_date := ⟨2025, 3, 1, 23, 59, 0⟩, grades := [] }

def exGrade : Grade :=
  { student := s0, assignment := exAssignment, score := 50, feedback := none }

def exAnnouncement : Announcement :=
  { title := "Exam Week", content := "Finals schedule posted", date := "2025-01-10"
  , recipient_groups := ["students"] }

def exThread : DiscussionThread :=
  { course_code := "CS201", title := "Week 1 questions", creator_name := "Dr Lim"
  , posts := [], timestamp := ⟨2025, 1, 1, 8, 0, 0⟩ }

/-! ## C10 -/

/-- C10: the `Grade.score` setter is not atomic on error — it stores the new
value before validating, so for every grade `g` and value `v` outside
`[0, 100]`, the assignment raises `ValueError` while the object is left
holding the invalid value `v`. -/
theorem grade_score_setter_stores_before_validate (g : Grade) (v : Rat)
    (h : ¬ (0 ≤ v ∧ v ≤ 100)) :
    (g.set_score v).1.score = v ∧
    (g.set_score v).2 = .error "Score must be between 0 and 100." := by
  refine ⟨rfl, ?_⟩
  show ({ g with score := v } : Grade).validate_score = _
  unfold Grade.validate_score
  exact if_neg h

/-- C10 witness: setting `exGrade.score = 150` raises, yet the stored score
is now 150, not the previous valid 50. -/
theorem grade_score_setter_stores_before_validate_witness :
    ¬ ((0 : Rat) ≤ 150 ∧ (150 : Rat) ≤ 100) ∧
    (exGrade.set_score 150).1.score = 150 ∧
    (exGrade.set_score 150).2 = .error "Score must be between 0 and 100." :=
  ⟨by decide, grade_score_setter_stores_before_validate exGrade 150 (by decide)⟩

/-! ## C6 -/

/-- C6 counterexample: adding the non-alphanumeric group `"bad tag!"` to an
announcement, and adding a whitespace-only post to a thread, do NOT raise a
`ValidationError` to the caller: each call returns normally with a printed
error message (the operations have no exceptional outcome at all in the
source), leaving the collections unchanged.  The raised-error part of the claim is
therefore false, though the collections are indeed left unchanged. -/
theorem add_group_and_post_return_printed_errors :
    exAnnouncement.add_recipient_group "bad tag!" =
      (exAnnouncement, AnnounceOutcome.invalidGroupPrinted) ∧
    exThread.add_post "Ben Reyes" "   " ⟨2025, 1, 2, 9, 0, 0⟩ =
      (exThread, PostOutcome.emptyMessagePrinted) := by
  decide

/-- C6 amended: adding a non-alphanumeric recipient group, or a
whitespace-only discussion post, fails by printing an error message and
returning normally (no exception is raised), and the recipient-group / post
collection is left unchanged. -/
theorem invalid_group_and_empty_post_leave_state_unchanged
    (a : Announcement) (group : String) (t : DiscussionThread)
    (person message : String) (now : PyDateTime)
    (hg : pyIsAlnum group = false) (hm : pyStripIsEmpty message = true) :
    a.add_recipient_group group = (a, AnnounceOutcome.invalidGroupPrinted) ∧
    t.add_post person message now = (t, PostOutcome.emptyMessagePrinted) := by
  unfold Announcement.add_recipient_group DiscussionThread.add_post
  rw [hg, hm]
  exact ⟨rfl, rfl⟩

/-- C6 witness. -/
theorem invalid_group_and_empty_post_leave_state_unchanged_witness :
    pyIsAlnum "bad tag!" = false ∧ pyStripIsEmpty "  " = true ∧
    (exAnnouncement.add_recipient_group "bad tag!" =
      (exAnnouncement, AnnounceOutcome.invalidGroupPrinted) ∧
     exThread.add_post "Dr Lim" "  " ⟨2025, 1, 2, 10, 0, 0⟩ =
      (exThread, PostOutcome.emptyMessagePrinted)) :=
  ⟨by decide, by decide,
    invalid_group_and_empty_post_leave_state_unchanged exAnnouncement "bad tag!"
      exThread "Dr Lim" "  " ⟨2025, 1, 2, 10, 0, 0⟩ (by decide) (by decide)⟩

/-! ## C9 -/

/-- C9: `Course.assign_assignment` with a malformed due-date string, or one
parsing to a datetime not in the future of `now`, reports a failure and
returns the course unchanged — the assignment list is untouched. -/
theorem assign_assignment_rejects_invalid_or_past_due
    (c : Course) (title description due_date : String) (now : PyDateTime)
    (h : ∀ d, datetime_fromisoformat due_date = some d → d.le now = true) :
    (c.assign_assignment title description due_date now).1 = c ∧
    ((c.assign_assignment title description due_date now).2 = AssignOutcome.invalidDateFormat ∨
     (c.assign_assignment title description due_date now).2 = AssignOutcome.dueDateNotFuture) := by
  unfold Course.assign_assignment
  cases hd : datetime_fromisoformat due_date with
  | none => exact ⟨rfl, Or.inl rfl⟩
  | some d =>
    have hle := h d hd
    simp [hle]

/-- C9 witness: a malformed date and a past date (relative to a `now` of
2024-06-01) are both rejected with the course unchanged. -/
theorem assign_assignment_rejects_invalid_or_past_due_witness :
    ((∀ d, datetime_fromisoformat "not-a-date" = some d → d.le ⟨2024, 6, 1, 0, 0, 0⟩ = true) ∧
      (c0.assign_assignment "HW1" "intro" "not-a-date" ⟨2024, 6, 1, 0, 0, 0⟩).1 = c0 ∧
      ((c0.assign_assignment "HW1" "intro" "not-a-date" ⟨2024, 6, 1, 0, 0, 0⟩).2 = AssignOutcome.invalidDateFormat ∨
       (c0.assign_assignment "HW1" "intro" "not-a-date" ⟨2024, 6, 1, 0, 0, 0⟩).2 = AssignOutcome.dueDateNotFuture)) ∧
    ((∀ d, datetime_fromisoformat "2020-01-01T00:00:00" = some d → d.le ⟨2024, 6, 1, 0, 0, 0⟩ = true) ∧
      (c0.assign_assignment "HW1" "intro" "2020-01-01T00:00:00" ⟨2024, 6, 1, 0, 0, 0⟩).1 = c0 ∧
      ((c0.assign_assignment "HW1" "intro" "2020-01-01T00:00:00" ⟨2024, 6, 1, 0, 0, 0⟩).2 = AssignOutcome.invalidDateFormat ∨
       (c0.assign_assignment "HW1" "intro" "2020-01-01T00:00:00" ⟨2024, 6, 1, 0, 0, 0⟩).2 = AssignOutcome.dueDateNotFuture)) := by
  have h1 : ∀ d, datetime_fromisoformat "not-a-date" = some d →
      d.le ⟨2024, 6, 1, 0, 0, 0⟩ = true := by
    intro d hd
    rw [show datetime_fromisoformat "not-a-date" = none from by decide] at hd
    cases hd
  have h2 : ∀ d, datetime_fromisoformat "2020-01-01T00:00:00" = some d →
      d.le ⟨2024, 6, 1, 0, 0, 0⟩ = true := by
    intro d hd
    rw [show datetime_fromisoformat "2020-01-01T00:00:00" = some ⟨2020, 1, 1, 0, 0, 0⟩
      from by decide] at hd
    injection hd with hd2
    rw [← hd2]
    decide
  exact ⟨⟨h1, assign_assignment_rejects_invalid_or_past_due c0 "HW1" "intro" "not-a-date" _ h1⟩,
    ⟨h2, assign_assignment_rejects_invalid_or_past_due c0 "HW1" "intro" "2020-01-01T00:00:00" _ h2⟩⟩

/-! ## C3 -/

/-- C3 counterexample: constructing a `Student` with an empty name and
address, a malformed email, a 2-digit contact number and a GPA of 9 raises
nothing — `__init__` assigns the private attributes directly, bypassing the
property setters, so the object is returned with every invalid value stored
verbatim — while the setters reject exactly these values. -/
theorem student_construction_skips_validation :
    Student.init "" "invalid-email" "12" "" "S9" "1" "BSIT" 9 none none "Student" =
      { name := "", email := "invalid-email", contact_number := "12", address := ""
      , student_id := "S9", year_level := "1", program := "BSIT", gpa := 9
      , birth_date := none, role := "Student", enrolled_courses := [], grades := [] } ∧
    s0.set_name "" = .error "Name cannot be empty." ∧
    s0.set_email "invalid-email" = .error "Invalid email address." ∧
    s0.set_contact_number "12" = .error "Contact number must be at least 10 digits." ∧
    s0.set_address "" = .error "Address cannot be empty." ∧
    s0.set_gpa 9 = .error "GPA must be between 0 and 4.0" :=
  ⟨rfl, rfl, rfl, rfl, rfl, rfl⟩

/-- C3 amended: field validation is enforced only by the property setters,
not at construction: `Student.__init__` and `Instructor.__init__` store any
invalid name, email, contact number, address or GPA verbatim without raising,
while each corresponding setter raises a `ValueError` on the same value. -/
theorem construction_unvalidated_setters_validate
    (name email cn addr sid yl prog : String) (gpa : Rat) (bd : Option String)
    (iname iemail icn iaddr iid irole : String)
    (hn : nameInvalid name = true) (he : emailInvalid email = true)
    (hc : contactInvalid cn = true) (ha : nameInvalid addr = true)
    (hg : ¬ (0 ≤ gpa ∧ gpa ≤ 4)) :
    (Student.init name email cn addr sid yl prog gpa bd none "Student" =
      { name, email, contact_number := cn, address := addr, student_id := sid
      , year_level := yl, program := prog, gpa, birth_date := bd
      , role := "Student", enrolled_courses := [], grades := [] }) ∧
    (Instructor.init iname iemail icn iaddr iid irole =
      { name := iname, email := iemail, contact_number := icn, address := iaddr
      , instructor_id := iid, role := irole, courses_taught := [] }) ∧
    (∀ s : Student, s.set_name name = .error "Name cannot be empty.") ∧
    (∀ s : Student, s.set_email email = .error "Invalid email address.") ∧
    (∀ s : Student, s.set_contact_number cn =
      .error "Contact number must be at least 10 digits.") ∧
    (∀ s : Student, s.set_address addr = .error "Address cannot be empty.") ∧
    (∀ s : Student, s.set_gpa gpa = .error "GPA must be between 0 and 4.0") := by
  refine ⟨rfl, rfl, ?_, ?_, ?_, ?_, ?_⟩ <;> intro s
  · unfold Student.set_name; rw [hn]; rfl
  · unfold Student.set_email; rw [he]; rfl
  · unfold Student.set_contact_number; rw [hc]; rfl
  · unfold Student.set_address; rw [ha]; rfl
  · unfold Student.set_gpa; exact if_neg hg

/-- C3 witness: the amended theorem applied at the concrete invalid input of
the counterexample. -/
theorem construction_unvalidated_setters_validate_witness :
    (nameInvalid "" = true ∧ emailInvalid "invalid-email" = true ∧
     contactInvalid "12" = true ∧ ¬ ((0 : Rat) ≤ 9 ∧ (9 : Rat) ≤ 4)) ∧
    (Student.init "" "invalid-email" "12" "" "S9" "1" "BSIT" 9 none none "Student" =
      { name := "", email := "invalid-email", contact_number := "12", address := ""
      , student_id := "S9", year_level := "1", program := "BSIT", gpa := 9
      , birth_date := none, role := "Student", enrolled_courses := [], grades := [] }) ∧
    (Instructor.init "" "invalid-email" "12" "" "I9" "Instructor" =
      { name := "", email := "invalid-email", contact_number := "12", address := ""
      , instructor_id := "I9", role := "Instructor", courses_taught := [] }) ∧
    (∀ s : Student, s.set_name "" = .error "Name cannot be empty.") ∧
    (∀ s : Student, s.set_email "invalid-email" = .error "Invalid email address.") ∧
    (∀ s : Student, s.set_contact_number "12" =
      .error "Contact number must be at least 10 digits.") ∧
    (∀ s : Student, s.set_address "" = .error "Address cannot be empty.") ∧
    (∀ s : Student, s.set_gpa 9 = .error "GPA must be between 0 and 4.0") :=
  ⟨⟨by decide, by decide, by decide, by decide⟩,
    construction_unvalidated_setters_validate "" "invalid-email" "12" "" "S9" "1"
      "BSIT" 9 none "" "invalid-email" "12" "" "I9" "Instructor"
      (by decide) (by decide) (by decide) (by decide) (by decide)⟩

/-! ## C2 -/

/-- C2: enrollment bookkeeping is NOT symmetric.  At the concrete input
(fresh `Enrollment`, student `s0`, course `c0`):

* `enroll_student` leaves `s0.enrolled_courses = []` (the student object is
  never written to) and leaves `c0.enrolled_students = []`; what it does is
  append the student to the separate `Course._students` list and record the
  pair in `_enrollments`;
* `unenroll_student` only deletes the record: `Course.remove_student` is
  `pass`, so the lists of the course keep the student, and the
  `enrolled_courses` is again untouched.

This contradicts the claimed two-sided update on both operations; the spec
itself calls the unenroll side incomplete/buggy. -/
theorem enrollment_bookkeeping_is_one_sided :
    ((Enrollment.mk []).enroll_student s0 c0).1 = s0 ∧
    ((Enrollment.mk []).enroll_student s0 c0).1.enrolled_courses = [] ∧
    ((Enrollment.mk []).enroll_student s0 c0).2.1.students = ["S1"] ∧
    ((Enrollment.mk []).enroll_student s0 c0).2.1.enrolled_students = [] ∧
    ((Enrollment.mk []).enroll_student s0 c0).2.2.enrollments =
      [(s0, ((Enrollment.mk []).enroll_student s0 c0).2.1)] ∧
    (((Enrollment.mk []).enroll_student s0 c0).2.2.unenroll_student s0
        ((Enrollment.mk []).enroll_student s0 c0).2.1).1 = s0 ∧
    (((Enrollment.mk []).enroll_student s0 c0).2.2.unenroll_student s0
        ((Enrollment.mk []).enroll_student s0 c0).2.1).2.1 =
      ((Enrollment.mk []).enroll_student s0 c0).2.1 ∧
    (((Enrollment.mk []).enroll_student s0 c0).2.2.unenroll_student s0
        ((Enrollment.mk []).enroll_student s0 c0).2.1).2.2.enrollments = [] := by
  decide

/-! ## C1 -/

/-- A repository state holding a single (fully valid) instructor. -/
def st1 : PlatformAdmin :=
  { students := [], instructors := [exInstructor], courses := [], enrollments := [] }

/-- C1: saving and reloading does NOT reproduce the state as soon as any
instructor exists.  `Instructor.to_dict` always emits the `courses_taught`
key, but `Instructor.__init__` has no such parameter, so the
`Instructor(**inst_data)` raises `TypeError`; the blanket exception handler
reports it and the whole load ends with every collection still empty.  At the
concrete one-instructor state `st1`: the saved document carries the
`courses_taught` key, and reloading it yields the untouched empty repository
instead of an equivalent instructor set. -/
theorem save_then_load_does_not_reproduce_state :
    (save_data st1).instructors =
      [{ instructor_id := some "I1", name := some "Dr Lim"
       , email := some "lim@mail.com", contact_number := some "09170000001"
       , address := some "Cebu City", role := some "Instructor"
       , courses_taught := some [] }] ∧
    (load_data (save_data st1) PlatformAdmin.init).1 = PlatformAdmin.init ∧
    (load_data (save_data st1) PlatformAdmin.init).1.instructors = [] ∧
    st1.instructors = [exInstructor] ∧
    (load_data (save_data st1) PlatformAdmin.init).2 =
      [Msg.loadError "TypeError: unexpected keyword argument courses_taught"] := by
  decide

/-! ## C4 -/

/-- A fully valid student record (the serialization of `s0`). -/
def goodStudentRec : StudentRec := Student.to_dict s0

/-- The same record with the required `name` key missing. -/
def badStudentRec : StudentRec := { goodStudentRec with name := none }

def docC4 : Doc :=
  { instructors := [], courses := [], students := [goodStudentRec, badStudentRec]
  , enrollments := [], schedules := [] }

def docC4good : Doc :=
  { instructors := [], courses := [], students := [goodStudentRec]
  , enrollments := [], schedules := [] }

/-- C4 counterexample: in a document whose students list holds one fully
valid record and one record missing its `name` key, the valid record is NOT
loaded: the `KeyError` escapes the list comprehension, the blanket handler
reports it, and `self.students` keeps its previous (empty) value — even
though the same valid record alone loads fine.  So a single bad record does
abort the rest of the load, contrary to the claim. -/
theorem bad_student_record_discards_good_records :
    (load_data docC4 PlatformAdmin.init).1.students = [] ∧
    (load_data docC4 PlatformAdmin.init).2 = [Msg.loadError "KeyError: name"] ∧
    (load_data docC4good PlatformAdmin.init).1.students.length = 1 := by
  decide

/-- C4 amended: a malformed record does not crash the program but does abort
the remainder of the load: when the instructors and courses phases succeed
and some student record is malformed, the loaded instructors and courses are
kept, the students collection keeps its previous (empty) value — the other
student records are NOT loaded — the enrollments and schedules phases never
run, and the failure is reported with a message.  (Only unresolvable
references, not malformed records, are skipped without aborting.) -/
theorem malformed_student_record_aborts_later_phases
    (doc : Doc) (insts : List Instructor) (cs : List Course) (w : List Msg) (e : String)
    (h1 : mapExcept instructorOfKwargs doc.instructors = .ok insts)
    (h2 : loadCourses insts doc.courses = (cs, w, none))
    (h3 : mapExcept (fun sd => Student.from_dict sd cs) doc.students = .error e) :
    (load_data doc PlatformAdmin.init).1.instructors = insts ∧
    (load_data doc PlatformAdmin.init).1.courses = cs ∧
    (load_data doc PlatformAdmin.init).1.students = [] ∧
    (load_data doc PlatformAdmin.init).2 = w ++ [Msg.loadError e] := by
  simp [load_data, loadRest, h1, h2, h3, PlatformAdmin.init]

/-- C4 witness: the amended theorem applied to `docC4`. -/
theorem malformed_student_record_aborts_later_phases_witness :
    (mapExcept instructorOfKwargs docC4.instructors = .ok [] ∧
     loadCourses [] docC4.courses = ([], [], none) ∧
     mapExcept (fun sd => Student.from_dict sd []) docC4.students =
       .error "KeyError: name") ∧
    ((load_data docC4 PlatformAdmin.init).1.instructors = [] ∧
     (load_data docC4 PlatformAdmin.init).1.courses = [] ∧
     (load_data docC4 PlatformAdmin.init).1.students = [] ∧
     (load_data docC4 PlatformAdmin.init).2 = [] ++ [Msg.loadError "KeyError: name"]) :=
  ⟨⟨rfl, rfl, rfl⟩,
    malformed_student_record_aborts_later_phases docC4 [] [] [] "KeyError: name"
      rfl rfl rfl⟩

/-! ## C5 -/

/-- The enroll loop of `Student.from_dict`, run on the serialized
`enrolled_courses` of a student: when the context resolves every course code
back to the very course it came from and the course list has no duplicates,
the loop re-enrolls exactly that list, in order. -/
theorem enrollFromDicts_resolves (ctx : List Course) :
    ∀ (l : List Course) (st : Student),
    (∀ c ∈ l, pyNext (fun x => x.course_code == c.course_code) ctx = some c) →
    (∀ c ∈ l, c ∉ st.enrolled_courses) → l.Nodup →
    enrollFromDicts ctx st (l.map Course.to_dict) =
      .ok { st with enrolled_courses := st.enrolled_courses ++ l }
  | [], st, _, _, _ => by simp [enrollFromDicts]
  | c :: rest, st, hres, hdisj, hnd => by
    have h1 : pyNext (fun x => x.course_code == c.course_code) ctx = some c :=
      hres c (by simp)
    have hcnot : c ∉ st.enrolled_courses := hdisj c (by simp)
    have hnd2 := List.nodup_cons.mp hnd
    have step := enrollFromDicts_resolves ctx rest (st.enroll c)
      (fun x hx => hres x (by simp [hx]))
      (fun x hx => by
        rw [Student.enroll, if_neg hcnot]
        simp only [List.mem_append, List.mem_singleton]
        rintro (h | h)
        · exact hdisj x (by simp [hx]) h
        · exact hnd2.1 (h ▸ hx))
      hnd2.2
    simp only [List.map_cons, enrollFromDicts, Course.to_dict, h1]
    rw [step, Student.enroll, if_neg hcnot]
    simp

/-- C5: the entity-level round-trip law for `Student`, for a student built
from valid input whose enrolled-course codes resolve in the context `ctx`
back to those same courses (and whose enrolled list has no duplicates —
`enroll` deduplicates, so a duplicate could not survive the trip):
`from_dict (to_dict e) ctx` succeeds, reproducing every scalar field
(name, email, contact_number, address, student_id, year_level, program, gpa,
birth_date) and the `enrolled_courses` sequence itself, element for element —
in particular element-wise equal course codes.  (The `role` tag is reset to
its default and the parallel `grades` ledger is not serialized at all, which
the claim does not cover.) -/
theorem student_round_trip (e : Student) (ctx : List Course)
    (hres : ∀ c ∈ e.enrolled_courses,
      pyNext (fun x => x.course_code == c.course_code) ctx = some c)
    (hnd : e.enrolled_courses.Nodup) :
    Student.from_dict (Student.to_dict e) ctx =
      .ok { name := e.name, email := e.email, contact_number := e.contact_number
          , address := e.address, student_id := e.student_id
          , year_level := e.year_level, program := e.program, gpa := e.gpa
          , birth_date := e.birth_date, role := "Student"
          , enrolled_courses := e.enrolled_courses, grades := [] } := by
  have base := enrollFromDicts_resolves ctx e.enrolled_courses
    (Student.init e.name e.email e.contact_number e.address e.student_id
      e.year_level e.program e.gpa e.birth_date none "Student")
    hres (by simp [Student.init]) hnd
  simp only [Student.from_dict, Student.to_dict, Option.getD_some]
  rw [base]
  simp [Student.init]

/-- C5 witness: the round trip at a concrete student enrolled in `c0`, with
`ctx = [c0]`. -/
theorem student_round_trip_witness :
    ((∀ c ∈ ({ s0 with enrolled_courses := [c0] } : Student).enrolled_courses,
        pyNext (fun x => x.course_code == c.course_code) [c0] = some c) ∧
      ({ s0 with enrolled_courses := [c0] } : Student).enrolled_courses.Nodup) ∧
    Student.from_dict (Student.to_dict { s0 with enrolled_courses := [c0] }) [c0] =
      .ok { name := "Ben Reyes", email := "ben@mail.com"
          , contact_number := "09998887766", address := "Davao City"
          , student_id := "S1", year_level := "2", program := "BSIT", gpa := 2
          , birth_date := none, role := "Student", enrolled_courses := [c0]
          , grades := [] } :=
  ⟨⟨by decide, by decide⟩,
    student_round_trip { s0 with enrolled_courses := [c0] } [c0]
      (by decide) (by decide)⟩

/-! ## C7 -/

/-- A document with one instructor `I1`, one course `C1` referencing `I1`,
one student `S1` whose `enrolled_courses` lists `C1`, and an empty
`enrollments` key — with the instructor record in the layout `save_data`
itself writes (the `courses_taught` key present). -/
def docC7 : Doc :=
  { instructors := [Instructor.to_dict exInstructor]
  , courses := [Course.to_dict c0]
  , students := [Student.to_dict { s0 with enrolled_courses := [c0] }]
  , enrollments := [], schedules := [] }

/-- C7 counterexample: on `docC7` — which contains exactly the claimed shape
(one instructor `I1`, one course `C1{instructor_id: I1}`, one student
`S1{enrolled_courses:[C1]}`, empty enrollments) — the resulting model does
NOT have `S1.enrolled_courses == [C1]`: the instructor record carries the
`courses_taught` key (as every saved document does), `Instructor(**data)`
raises `TypeError`, and the load aborts with no student and no course
materialized at all.  The claim, quantified over every document of that
shape, is therefore false. -/
theorem loaded_linkage_fails_on_saved_layout :
    (load_data docC7 PlatformAdmin.init).1.students = [] ∧
    (load_data docC7 PlatformAdmin.init).1.courses = [] ∧
    (load_data docC7 PlatformAdmin.init).2 =
      [Msg.loadError "TypeError: unexpected keyword argument courses_taught"] := by
  decide

/-- C7 amended: for every document of the claimed shape whose instructor
record carries exactly the constructor-accepted keys (no `courses_taught`),
the student phase rebuilds `S1.enrolled_courses = [C1]` (matched by course
code) while `C1.enrolled_students` — and `C1._students` — stay empty: the
two-sided linkage is established only by the separate enrollments phase. -/
theorem single_student_single_course_linkage
    (iname iemail icn iaddr iid : String)
    (cname ccode : String) (units : Int)
    (sname semail scn saddr sid yl prog : String) (gpa : Rat) (bd : Option String) :
    (load_data
      { instructors := [⟨some iid, some iname, some iemail, some icn, some iaddr
                        , some "Instructor", none⟩]
      , courses := [⟨some cname, some ccode, some iid, some units⟩]
      , students := [⟨some sname, some semail, some scn, some saddr, some sid
                     , some yl, some prog, some gpa, bd
                     , some [⟨some cname, some ccode, some iid, some units⟩]⟩]
      , enrollments := [], schedules := [] } PlatformAdmin.init).1.students.map
        (fun s => s.enrolled_courses.map Course.course_code) = [[ccode]] ∧
    (load_data
      { instructors := [⟨some iid, some iname, some iemail, some icn, some iaddr
                        , some "Instructor", none⟩]
      , courses := [⟨some cname, some ccode, some iid, some units⟩]
      , students := [⟨some sname, some semail, some scn, some saddr, some sid
                     , some yl, some prog, some gpa, bd
                     , some [⟨some cname, some ccode, some iid, some units⟩]⟩]
      , enrollments := [], schedules := [] } PlatformAdmin.init).1.courses.map
        Course.enrolled_students = [[]] ∧
    (load_data
      { instructors := [⟨some iid, some iname, some iemail, some icn, some iaddr
                        , some "Instructor", none⟩]
      , courses := [⟨some cname, some ccode, some iid, some units⟩]
      , students := [⟨some sname, some semail, some scn, some saddr, some sid
                     , some yl, some prog, some gpa, bd
                     , some [⟨some cname, some ccode, some iid, some units⟩]⟩]
      , enrollments := [], schedules := [] } PlatformAdmin.init).1.courses.map
        Course.students = [[]] := by
  simp [load_data, loadRest, loadCourses, loadEnrollments, loadSchedules, mapExcept,
    instructorOfKwargs, Student.from_dict, enrollFromDicts, pyNext, Student.enroll,
    Instructor.init, Course.init, Student.init]

/-! ## C8 -/

/-- The courses phase never raises on records that carry all required keys. -/
theorem loadCourses_noerr (insts : List Instructor) :
    ∀ l : List CourseRec,
    (∀ cr ∈ l, cr.course_name.isSome ∧ cr.course_code.isSome ∧ cr.units.isSome) →
    (loadCourses insts l).2.2 = none
  | [], _ => by simp [loadCourses]
  | cd :: rest, hk => by
    have hcd := hk cd (by simp)
    obtain ⟨nm, hnm⟩ := Option.isSome_iff_exists.mp hcd.1
    obtain ⟨code, hcc⟩ := Option.isSome_iff_exists.mp hcd.2.1
    obtain ⟨u, hu⟩ := Option.isSome_iff_exists.mp hcd.2.2
    have ih := loadCourses_noerr insts rest (fun x hx => hk x (by simp [hx]))
    simp only [loadCourses]
    cases hn : pyNext (fun i => cd.instructor_id == some i.instructor_id) insts with
    | none => simpa using ih
    | some inst => rw [hnm, hcc, hu]; simpa using ih

/-- The courses phase distributes over an appended record list as long as the
first part does not raise. -/
theorem loadCourses_append (insts : List Instructor) :
    ∀ l1 l2 : List CourseRec, (loadCourses insts l1).2.2 = none →
    loadCourses insts (l1 ++ l2) =
      ((loadCourses insts l1).1 ++ (loadCourses insts l2).1,
       (loadCourses insts l1).2.1 ++ (loadCourses insts l2).2.1,
       (loadCourses insts l2).2.2)
  | [], l2, _ => by simp [loadCourses]
  | cd :: rest, l2, h => by
    simp only [loadCourses] at h
    simp only [List.cons_append, loadCourses, List.append_eq]
    cases hn : pyNext (fun i => cd.instructor_id == some i.instructor_id) insts with
    | none =>
      simp only [hn] at h ⊢
      rw [loadCourses_append insts rest l2 h]
      simp
    | some inst =>
      simp only [hn] at h ⊢
      cases hnm : cd.course_name with
      | none => simp [hnm] at h
      | some nm =>
        cases hcc : cd.course_code with
        | none => simp [hnm, hcc] at h
        | some code =>
          cases hu : cd.units with
          | none => simp [hnm, hcc, hu] at h
          | some u =>
            simp only [hnm, hcc, hu] at h ⊢
            rw [loadCourses_append insts rest l2 h]
            simp

/-- Phases 3 to 5 read the already-materialized courses from the repository
state, not from the document, so the `courses` key of the document is irrelevant
to them. -/
theorem loadRest_ignores_doc_courses (d : Doc) (cs : List CourseRec)
    (s : PlatformAdmin) : loadRest { d with courses := cs } s = loadRest d s := rfl

/-- C8: a course record whose `instructor_id` matches no instructor
materialized in phase 1 is skipped: provided the records before it carry
their required keys (so the phase reaches it), the loaded state is exactly
the state obtained from the same document without that record, and a warning
naming the missing instructor is reported.  In particular the course is
absent from the resulting collection and every other record in the document
is processed as usual. -/
theorem course_with_unknown_instructor_is_skipped
    (doc : Doc) (insts : List Instructor) (pre post : List CourseRec) (r : CourseRec)
    (h1 : mapExcept instructorOfKwargs doc.instructors = .ok insts)
    (hsplit : doc.courses = pre ++ r :: post)
    (hmiss : pyNext (fun i => r.instructor_id == some i.instructor_id) insts = none)
    (hpre : ∀ cr ∈ pre, cr.course_name.isSome ∧ cr.course_code.isSome ∧ cr.units.isSome) :
    (load_data doc PlatformAdmin.init).1 =
      (load_data { doc with courses := pre ++ post } PlatformAdmin.init).1 ∧
    Msg.warnInstructorNotFound r.instructor_id (r.course_name.getD "Unknown")
      ∈ (load_data doc PlatformAdmin.init).2 := by
  have hA : (loadCourses insts pre).2.2 = none := loadCourses_noerr insts pre hpre
  have eqB : loadCourses insts (r :: post) =
      ((loadCourses insts post).1,
       Msg.warnInstructorNotFound r.instructor_id (r.course_name.getD "Unknown") ::
         (loadCourses insts post).2.1,
       (loadCourses insts post).2.2) := by
    simp [loadCourses, hmiss]
  have eq1 := loadCourses_append insts pre (r :: post) hA
  have eq2 := loadCourses_append insts pre post hA
  rw [eqB] at eq1
  simp only [load_data, h1, hsplit, eq1, eq2]
  cases hC : (loadCourses insts post).2.2 with
  | some e => simp
  | none => simp [loadRest_ignores_doc_courses]

/-- C8 witness.  `docC8` has a valid instructor record for `I1`, one course
resolvable to it, and one ghost course referencing the unknown `I404`. -/
def ghostCourseRec : CourseRec :=
  { course_name := some "Ghost Course", course_code := some "CS999"
  , instructor_id := some "I404", units := some 3 }

def docC8 : Doc :=
  { instructors := [{ instructor_id := some "I1", name := some "Dr Lim"
                    , email := some "lim@mail.com", contact_number := some "09170000001"
                    , address := some "Cebu City", role := some "Instructor"
                    , courses_taught := none }]
  , courses := [Course.to_dict c0, ghostCourseRec]
  , students := [], enrollments := [], schedules := [] }

theorem course_with_unknown_instructor_is_skipped_witness :
    (mapExcept instructorOfKwargs docC8.instructors = .ok [exInstructor] ∧
     docC8.courses = [Course.to_dict c0] ++ ghostCourseRec :: [] ∧
     pyNext (fun i => ghostCourseRec.instructor_id == some i.instructor_id)
       [exInstructor] = none) ∧
    ((load_data docC8 PlatformAdmin.init).1 =
      (load_data { docC8 with courses := [Course.to_dict c0] ++ [] }
        PlatformAdmin.init).1 ∧
     Msg.warnInstructorNotFound ghostCourseRec.instructor_id
       (ghostCourseRec.course_name.getD "Unknown") ∈
       (load_data docC8 PlatformAdmin.init).2) :=
  ⟨⟨rfl, rfl, rfl⟩,
    course_with_unknown_instructor_is_skipped docC8 [exInstructor]
      [Course.to_dict c0] [] ghostCourseRec rfl rfl rfl (by decide)⟩

end CaseStudy3
